import Mathlib

/-!
Shallow embedding of the SpotAlert backend's alert ingestion and zone-policy
pipeline (`src/server.js`), together with the zone-rule upsert handlers
(`src/server.js` and `src/routes/zone_rules.js`).

Modelling conventions:
* Time is an integer number of milliseconds (`Int`), matching `Date.now()`;
  the ISO-8601 strings stored in the `timestamp` column compare
  lexicographically exactly as their underlying instants, so `timestamp >= ?`
  in SQL is `≤` on the instants.
* SQLite rows become Lean structures; a table is a `List` of rows.
* External collaborators (Rekognition, S3, SES) are modelled by oracle fields
  of a `PipelineEnv`: the matcher either throws (`none`) or returns a number
  of face matches, S3 writes/deletes either succeed or fail.
* Side effects of one request are collected in an explicit `Effect` trace.
* JS `Number(x || d)` falsy-default behaviour is modelled explicitly
  (absent or `0` falls back to the default).
-/

namespace SpotAlert

/-- `toLowerCase()` modelled on the character sequence (kernel-reducible,
unlike `String.toLower`). -/
def jsToLower (s : String) : String :=
  String.mk (s.data.map Char.toLower)

/-- `trim()` modelled on the character sequence: strip leading and
trailing whitespace. -/
def jsTrim (s : String) : String :=
  String.mk
    (((s.data.dropWhile Char.isWhitespace).reverse.dropWhile
        Char.isWhitespace).reverse)

/-- `safeLower` from `server.js`: `String(s||"").toLowerCase().trim()`. -/
def safeLower (s : String) : String :=
  jsTrim (jsToLower s)

/-- One row of the `alerts` table (the Alert Ledger). `ty` is the
`type` column (`"known"` or `"unknown"`), `pinned` the protected flag. -/
structure Alert where
  id : Nat
  userEmail : String
  ty : String
  imageKey : Option String
  channel : String
  cost : Rat
  zoneId : Option Nat
  cameraId : Option Nat
  pinned : Bool
  timestamp : Int
  deriving DecidableEq, Repr

/-- One row of the `zone_rules` table (keyed by its unique `zone_id`). -/
structure ZoneRule where
  ruleType : String
  alertInterval : Int
  deriving DecidableEq, Repr

/-- The relational state the pipeline touches: the alert ledger, the
zone-rule table (`zone_id` is UNIQUE, stored here as the key of each pair),
the `zones` table restricted to its `cost_per_scan` column, and the next
AUTOINCREMENT rowid for `alerts`. -/
structure Db where
  alerts : List Alert
  zoneRules : List (Nat × ZoneRule)
  zones : List (Nat × Option Rat)
  nextId : Nat
  deriving DecidableEq, Repr

/-- `SELECT rule_type, alert_interval FROM zone_rules WHERE zone_id=?`. -/
def getZoneRule (db : Db) (zoneId : Nat) : Option ZoneRule :=
  (db.zoneRules.find? (fun p => p.1 == zoneId)).map Prod.snd

/-- `shouldCooldownUnknown` (`server.js` 453-476).  `defaultMinutes` models
`Number(process.env.UNKNOWN_ALERT_COOLDOWN_MINUTES || 5)`; the rule's
`alert_interval` wins unless it is falsy (`0`). Returns true iff an
`unknown` alert for the zone exists with `timestamp >= now - minutes`. -/
def shouldCooldownUnknown (db : Db) (now : Int) (defaultMinutes : Int)
    (zoneId : Option Nat) : Bool :=
  match zoneId with
  | none => false
  | some zid =>
    let minutes : Int :=
      match getZoneRule db zid with
      | some r => if r.alertInterval = 0 then defaultMinutes else r.alertInterval
      | none => defaultMinutes
    if minutes ≤ 0 then false
    else
      db.alerts.any (fun a =>
        a.zoneId == some zid && a.ty == "unknown" &&
          decide (now - minutes * 60 * 1000 ≤ a.timestamp))

/-- `ruleAllowsAlert` (`server.js` 478-489). -/
def ruleAllowsAlert (db : Db) (zoneId : Option Nat) (isKnown : Bool) : Bool :=
  match zoneId with
  | none => true
  | some zid =>
    let rt :=
      match getZoneRule db zid with
      | some r => if r.ruleType = "" then "mixed" else r.ruleType
      | none => "mixed"
    if rt = "mixed" then true
    else if rt = "known_only" then isKnown
    else if rt = "unknown_only" then !isKnown
    else true

/-- Cost resolution inside `processAlertPipeline` (`server.js` 1651-1656):
default `0.001`, overridden by the zone's non-null `cost_per_scan`. -/
def resolveCost (db : Db) (zoneId : Option Nat) : Rat :=
  match zoneId with
  | none => (1 : Rat) / 1000
  | some zid =>
    match db.zones.find? (fun p => p.1 == zid) with
    | some (_, some c) => c
    | _ => (1 : Rat) / 1000

/-- Observable side effects of one request, in the order they are issued:
a Rekognition `SearchFacesByImage` call, an S3 `PutObject` (with success
flag), an S3 `DeleteObject` attempt (with success flag), a ledger
`INSERT`, a ledger `DELETE`, an SES send attempt. -/
inductive Effect where
  | matcherCall : Effect
  | s3Put (key : String) (ok : Bool) : Effect
  | s3Delete (key : String) (ok : Bool) : Effect
  | ledgerInsert (id : Nat) : Effect
  | ledgerDelete (id : Nat) : Effect
  | emailSend (addr : String) : Effect
  deriving DecidableEq, Repr

/-- The retention loop body (`server.js` 436-444): for each victim, attempt
the S3 delete of its blob (failure only warned about), then delete the
ledger row. `s3Fails k` says the S3 delete of key `k` throws. -/
def retentionEffects (s3Fails : String → Bool) : List Alert → List Effect
  | [] => []
  | v :: vs =>
    (match v.imageKey with
     | some k => [Effect.s3Delete k (!s3Fails k)]
     | none => []) ++ Effect.ledgerDelete v.id :: retentionEffects s3Fails vs

/-- Oldest-first order used by the retention victim query
(`ORDER BY timestamp ASC`). -/
def tsLe (a b : Alert) : Prop :=
  a.timestamp ≤ b.timestamp

instance : DecidableRel tsLe := fun a b =>
  inferInstanceAs (Decidable (a.timestamp ≤ b.timestamp))

instance : IsTotal Alert tsLe :=
  ⟨fun a b => Int.le_total a.timestamp b.timestamp⟩

instance : IsTrans Alert tsLe :=
  ⟨fun _ _ _ h h' => le_trans h h'⟩

/-- The victim list of `enforceAlertRetention`: the account's unpinned
rows, oldest first, limited to `toDelete`. -/
def retentionVictims (db : Db) (email : String) (toDelete : Nat) : List Alert :=
  (List.insertionSort tsLe
      (db.alerts.filter (fun a => a.userEmail == email && a.pinned == false))).take
    toDelete

/-- `enforceAlertRetention` (`server.js` 413-445): count the account's
rows; if `cnt ≤ max` do nothing, otherwise delete the `cnt - max` oldest
unpinned rows (blob first, then row). Returns the new state and the
effect trace. -/
def enforceAlertRetention (s3Fails : String → Bool) (db : Db)
    (userEmail : String) (max : Nat) : Db × List Effect :=
  let email := safeLower userEmail
  let cnt := (db.alerts.filter (fun a => a.userEmail == email)).length
  if cnt ≤ max then (db, [])
  else
    let victims := retentionVictims db email (cnt - max)
    let vids := victims.map Alert.id
    ({ db with alerts := db.alerts.filter (fun a => decide (a.id ∉ vids)) },
     retentionEffects s3Fails victims)

/-- Environment for one `processAlertPipeline` call: configuration
presence, the oracles for the external collaborators, the current time,
the freshly generated S3 key, and the two env-derived numbers. -/
structure PipelineEnv where
  bucketSet : Bool
  collectionSet : Bool
  /-- `none` models a Rekognition error (caught, `matches = []`);
  `some n` a successful search returning `n` face matches. -/
  matcherResult : Option Nat
  s3PutFails : Bool
  s3DeleteFails : String → Bool
  now : Int
  /-- the key `alerts/<email>/<ts>_<rand>.jpg` generated for this call -/
  newKey : String
  /-- `Number(process.env.UNKNOWN_ALERT_COOLDOWN_MINUTES || 5)` -/
  defaultCooldown : Int
  /-- `Number(process.env.MAX_ALERTS_PER_USER || 100)` -/
  maxAlerts : Nat

/-- The JSON shapes `processAlertPipeline` can return, one constructor per
`return` statement of `server.js` 1613-1718. The `accepted` constructor
carries every field of the final object: id, type, the raw face-match
count (`faces`), cost, zone id, camera id, and the S3 `image_key`. -/
inductive PipelineResult where
  | errorMissingEmail : PipelineResult
  | errorConfig (msg : String) : PipelineResult
  | skippedCooldown (zoneId : Option Nat) : PipelineResult
  | skippedPolicy (zoneId : Option Nat) (ty : String) : PipelineResult
  | errorS3 : PipelineResult
  | accepted (alertId : Nat) (ty : String) (faces : Nat) (cost : Rat)
      (zoneId : Option Nat) (cameraId : Option Nat) (imageKey : String) :
      PipelineResult
  deriving DecidableEq, Repr

/-- The `error` field of the returned JSON, for the `ok:false` shapes. -/
def resultError : PipelineResult → Option String
  | .errorMissingEmail => some "Missing user email"
  | .errorConfig m => some m
  | .errorS3 => some "S3 upload failed"
  | _ => none

/-- The `image_key` field of the returned JSON (only the accepted shape
has one). -/
def resultImageKey : PipelineResult → Option String
  | .accepted _ _ _ _ _ _ k => some k
  | _ => none

/-- `processAlertPipeline` (`server.js` 1613-1718): validation, cooldown
short-circuit, Rekognition search (fail-open), zone-rule filter, cost
resolution, S3 write (fatal on failure), ledger insert, retention,
unknown-person email. Returns the result, the new state and the effect
trace. -/
def processAlertPipeline (env : PipelineEnv) (db : Db) (userEmail : String)
    (zoneId : Option Nat) (cameraId : Option Nat) (channel : String) :
    PipelineResult × Db × List Effect :=
  let email := safeLower userEmail
  if email = "" then (.errorMissingEmail, db, [])
  else if !env.bucketSet then (.errorConfig "S3_BUCKET missing", db, [])
  else if !env.collectionSet then (.errorConfig "REKOG_COLLECTION_ID missing", db, [])
  else if shouldCooldownUnknown db env.now env.defaultCooldown zoneId then
    (.skippedCooldown zoneId, db, [])
  else
    let faceMatches : Nat := (env.matcherResult).getD 0
    let isKnown : Bool := decide (0 < faceMatches)
    if !ruleAllowsAlert db zoneId isKnown then
      (.skippedPolicy zoneId (if isKnown then "known" else "unknown"), db,
       [Effect.matcherCall])
    else
      let cost := resolveCost db zoneId
      let key := env.newKey
      if env.s3PutFails then
        (.errorS3, db, [Effect.matcherCall, Effect.s3Put key false])
      else
        let alertId := db.nextId
        let newAlert : Alert :=
          { id := alertId, userEmail := email,
            ty := if isKnown then "known" else "unknown",
            imageKey := some key,
            channel := if channel = "" then "email" else channel,
            cost := cost, zoneId := zoneId, cameraId := cameraId,
            pinned := false, timestamp := env.now }
        let db1 : Db :=
          { db with alerts := db.alerts ++ [newAlert], nextId := db.nextId + 1 }
        let ret := enforceAlertRetention env.s3DeleteFails db1 email env.maxAlerts
        (.accepted alertId (if isKnown then "known" else "unknown") faceMatches cost
           zoneId cameraId key,
         ret.1,
         [Effect.matcherCall, Effect.s3Put key true, Effect.ledgerInsert alertId] ++
           ret.2 ++ (if isKnown then [] else [Effect.emailSend email]))

/-- The HTTP-level outcomes of the owner-scoped alert delete route. -/
inductive DeleteResult where
  | notFound : DeleteResult
  | forbidden : DeleteResult
  | okDeleted : DeleteResult
  deriving DecidableEq, Repr

/-- `DELETE /api/alerts/:id` (`server.js` 1511-1540): load the row, check
ownership, attempt the S3 delete of the blob (failure only warned about),
then delete the ledger row (pinned rows may be deleted manually). -/
def deleteAlertRoute (s3Fails : String → Bool) (db : Db) (userEmail : String)
    (id : Nat) : DeleteResult × Db × List Effect :=
  let email := safeLower userEmail
  match db.alerts.find? (fun a => a.id == id) with
  | none => (.notFound, db, [])
  | some row =>
    if safeLower row.userEmail ≠ email then (.forbidden, db, [])
    else
      ((.okDeleted),
       { db with alerts := db.alerts.filter (fun a => a.id != id) },
       (match row.imageKey with
        | some k => [Effect.s3Delete k (!s3Fails k)]
        | none => []) ++ [Effect.ledgerDelete id])

/-- Newest-first order of the listing query (`ORDER BY timestamp DESC`). -/
def tsGe (a b : Alert) : Prop :=
  b.timestamp ≤ a.timestamp

instance : DecidableRel tsGe := fun a b =>
  inferInstanceAs (Decidable (b.timestamp ≤ a.timestamp))

instance : IsTotal Alert tsGe :=
  ⟨fun a b => Int.le_total b.timestamp a.timestamp⟩

instance : IsTrans Alert tsGe :=
  ⟨fun _ _ _ h h' => le_trans h' h⟩

/-- `GET /api/alerts/list` (`server.js` 1423-1461): `type` defaults to
`"unknown"`; `type=all` drops the classification filter; rows are the
caller's, newest first, `LIMIT 200`. -/
def listAlertsRoute (db : Db) (userEmail : String)
    (queryType : Option String) : List Alert :=
  let email := safeLower userEmail
  let ty := safeLower
    (match queryType with
     | none => "unknown"
     | some t => if t = "" then "unknown" else t)
  if ty = "all" then
    (List.insertionSort tsGe
        (db.alerts.filter (fun a => a.userEmail == email))).take 200
  else
    (List.insertionSort tsGe
        (db.alerts.filter (fun a => a.userEmail == email && a.ty == ty))).take 200

/-- Outcomes of a zone-rule upsert request. -/
inductive UpsertResult where
  | badRequest (msg : String) : UpsertResult
  | forbidden : UpsertResult
  | okSaved : UpsertResult
  deriving DecidableEq, Repr

/-- `INSERT ... ON CONFLICT(zone_id) DO UPDATE`: replace any existing rule
row for the zone. -/
def upsertZoneRule (db : Db) (zoneId : Nat) (r : ZoneRule) : Db :=
  { db with
    zoneRules := db.zoneRules.filter (fun p => p.1 != zoneId) ++ [(zoneId, r)] }

/-- `Number(req.body.alert_interval || 10)` in the `server.js` handler:
an absent or zero body field falls back to 10, anything else is stored
as given. -/
def serverInterval (alertInterval : Option Int) : Int :=
  match alertInterval with
  | none => 10
  | some v => if v = 0 then 10 else v

/-- `Math.max(1, Math.min(rawInterval || 10, 1440))` with
`rawInterval = Number(req.body.alert_interval ?? 10)` in
`routes/zone_rules.js`. -/
def routerInterval (alertInterval : Option Int) : Int :=
  max 1 (min (if (alertInterval).getD 10 = 0 then 10
    else (alertInterval).getD 10) 1440)

/-- `POST /api/zone-rules` as defined inline in `server.js` 959-1000:
`alert_interval = Number(req.body.alert_interval || 10)` (no clamping),
rule type validated against the three allowed values, ownership checked
(`ownerOk` abstracts the zones/locations join), then the upsert.
`alertInterval = none` models an absent/falsy body field. -/
def zoneRulesUpsertServer (db : Db) (ownerOk : Bool) (zoneId : Nat)
    (ruleType : String) (alertInterval : Option Int) : UpsertResult × Db :=
  let interval : Int := serverInterval alertInterval
  if zoneId = 0 ∨ ruleType = "" then (.badRequest "Missing rule data", db)
  else if !(["known_only", "unknown_only", "mixed"].contains ruleType) then
    (.badRequest "Invalid rule type", db)
  else if !ownerOk then (.forbidden, db)
  else (.okSaved, upsertZoneRule db zoneId ⟨ruleType, interval⟩)

/-- `router.post("/")` in `routes/zone_rules.js` 36-82 (a variant of the
same endpoint that is not mounted by `server.js`):
`Math.max(1, Math.min(rawInterval || 10, 1440))` clamps the interval into
[1, 1440] before the otherwise identical validation and upsert. -/
def zoneRulesUpsertRouter (db : Db) (ownerOk : Bool) (zoneId : Nat)
    (ruleType : String) (alertInterval : Option Int) : UpsertResult × Db :=
  let interval : Int := routerInterval alertInterval
  if zoneId = 0 ∨ ruleType = "" then (.badRequest "Missing rule data", db)
  else if !(["known_only", "unknown_only", "mixed"].contains ruleType) then
    (.badRequest "Invalid rule type", db)
  else if !ownerOk then (.forbidden, db)
  else (.okSaved, upsertZoneRule db zoneId ⟨ruleType, interval⟩)

/-! ## Derived queries used in statements -/

/-- `SELECT COUNT(*) FROM alerts WHERE user_email=?` (the retention
counter's underlying row set). -/
def accountAlerts (db : Db) (userEmail : String) : List Alert :=
  db.alerts.filter (fun a => a.userEmail == safeLower userEmail)

/-- The account's unpinned rows (`WHERE user_email=? AND pinned=0`). -/
def unprotectedAlerts (db : Db) (userEmail : String) : List Alert :=
  db.alerts.filter (fun a => a.userEmail == safeLower userEmail && a.pinned == false)

/-! ## Helper lemmas on id-based deletion -/

theorem countP_id_mem (l : List Alert) : ∀ (v : List Nat),
    (l.map Alert.id).Nodup → v.Nodup → (∀ i ∈ v, i ∈ l.map Alert.id) →
    l.countP (fun a => decide (a.id ∈ v)) = v.length := by
  induction l with
  | nil =>
    intro v _ _ hsub
    have hv : v = [] :=
      List.eq_nil_iff_forall_not_mem.mpr (fun i hi => by simpa using hsub i hi)
    subst hv; rfl
  | cons a tl ih =>
    intro v hl hv hsub
    have hl0 := List.nodup_cons.mp hl
    have hna : a.id ∉ tl.map Alert.id := hl0.1
    have hl' : (tl.map Alert.id).Nodup := hl0.2
    by_cases ha : a.id ∈ v
    · have hcongr : tl.countP (fun x => decide (x.id ∈ v)) =
          tl.countP (fun x => decide (x.id ∈ v.erase a.id)) := by
        apply List.countP_congr
        intro x hx
        have hxid : x.id ≠ a.id := by
          intro h; exact hna (h ▸ List.mem_map_of_mem Alert.id hx)
        simp [List.mem_erase_of_ne hxid]
      have hsub' : ∀ i ∈ v.erase a.id, i ∈ tl.map Alert.id := by
        intro i hi
        obtain ⟨hne, hmem⟩ := (hv.mem_erase_iff).mp hi
        have h2 := hsub i hmem
        simp only [List.map_cons, List.mem_cons] at h2
        rcases h2 with h2 | h2
        · exact absurd h2 hne
        · exact h2
      have hrec := ih (v.erase a.id) hl' (hv.erase _) hsub'
      have hlen : (v.erase a.id).length = v.length - 1 :=
        List.length_erase_of_mem ha
      have hpos : 0 < v.length := List.length_pos_of_mem ha
      rw [List.countP_cons, hcongr, hrec, hlen]
      simp only [ha, decide_True, if_true]
      omega
    · have hsub' : ∀ i ∈ v, i ∈ tl.map Alert.id := by
        intro i hi
        have h2 := hsub i hi
        simp only [List.map_cons, List.mem_cons] at h2
        rcases h2 with h2 | h2
        · exact absurd (h2 ▸ hi) ha
        · exact h2
      have hrec := ih v hl' hv hsub'
      rw [List.countP_cons, hrec]
      simp [ha]

theorem length_filter_id_not_mem (l : List Alert) (v : List Nat)
    (hl : (l.map Alert.id).Nodup) (hv : v.Nodup)
    (hsub : ∀ i ∈ v, i ∈ l.map Alert.id) :
    (l.filter (fun a => decide (a.id ∉ v))).length = l.length - v.length := by
  have hsplit := List.length_eq_countP_add_countP (fun a => decide (a.id ∈ v)) l
  have hcount := countP_id_mem l v hl hv hsub
  have hcompl : l.countP (fun a => decide ¬(decide (a.id ∈ v) = true)) =
      l.countP (fun a => decide (a.id ∉ v)) := by
    apply List.countP_congr
    intro x _
    simp
  have hfl : (l.filter (fun a => decide (a.id ∉ v))).length =
      l.countP (fun a => decide (a.id ∉ v)) :=
    (List.countP_eq_length_filter _ _).symm
  omega

/-! ## Structure of the retention victim selection -/

theorem mem_unprotected_iff (db : Db) (email : String) (x : Alert) :
    x ∈ db.alerts.filter (fun a => a.userEmail == email && a.pinned == false) ↔
      x ∈ db.alerts ∧ x.userEmail = email ∧ x.pinned = false := by
  simp [List.mem_filter, and_assoc]

theorem retentionVictims_subset (db : Db) (email : String) (n : Nat) :
    ∀ x ∈ retentionVictims db email n,
      x ∈ db.alerts.filter (fun a => a.userEmail == email && a.pinned == false) := by
  intro x hx
  exact (List.perm_insertionSort tsLe _).subset (List.mem_of_mem_take hx)

theorem unprotected_map_id_nodup (db : Db) (email : String)
    (hId : (db.alerts.map Alert.id).Nodup) :
    ((db.alerts.filter (fun a => a.userEmail == email && a.pinned == false)).map
        Alert.id).Nodup :=
  List.Nodup.sublist ((List.filter_sublist _).map Alert.id) hId

theorem retentionVictims_map_id_nodup (db : Db) (email : String) (n : Nat)
    (hId : (db.alerts.map Alert.id).Nodup) :
    ((retentionVictims db email n).map Alert.id).Nodup := by
  have hU := unprotected_map_id_nodup db email hId
  have hS : ((List.insertionSort tsLe
      (db.alerts.filter (fun a => a.userEmail == email && a.pinned == false))).map
        Alert.id).Nodup :=
    ((List.perm_insertionSort tsLe _).map Alert.id).nodup_iff.mpr hU
  rw [retentionVictims, List.map_take]
  exact List.Nodup.sublist (List.take_sublist _ _) hS

theorem enforce_eq_of_le (s3f : String → Bool) (db : Db) (userEmail : String)
    (max : Nat)
    (h : (db.alerts.filter
        (fun a => a.userEmail == safeLower userEmail)).length ≤ max) :
    enforceAlertRetention s3f db userEmail max = (db, []) := by
  simp only [enforceAlertRetention]
  rw [if_pos h]

theorem enforce_eq_of_gt (s3f : String → Bool) (db : Db) (userEmail : String)
    (max : Nat)
    (h : ¬ (db.alerts.filter
        (fun a => a.userEmail == safeLower userEmail)).length ≤ max) :
    enforceAlertRetention s3f db userEmail max =
      ({ db with
          alerts := db.alerts.filter (fun a => decide (a.id ∉
            (retentionVictims db (safeLower userEmail)
              ((db.alerts.filter
                (fun a => a.userEmail == safeLower userEmail)).length - max)).map
                  Alert.id)) },
       retentionEffects s3f
         (retentionVictims db (safeLower userEmail)
           ((db.alerts.filter
             (fun a => a.userEmail == safeLower userEmail)).length - max))) := by
  simp only [enforceAlertRetention]
  rw [if_neg h]

/-- C1: `enforce(accountId, maxCount)` is a no-op when the account's alert
count is at most `maxCount`; otherwise it deletes exactly
`min (count - maxCount, #unprotected)` rows, all of them unprotected rows
of that account and oldest-first (every deleted row is no newer than any
surviving unprotected row of the account); protected rows are never
deleted; and when every row of the account is unprotected, exactly
`maxCount` rows of the account remain. -/
theorem C1_retention_enforce (s3f : String → Bool) (db : Db)
    (userEmail : String) (max : Nat)
    (hId : (db.alerts.map Alert.id).Nodup) :
    ((accountAlerts db userEmail).length ≤ max →
      (enforceAlertRetention s3f db userEmail max).1 = db) ∧
    (∀ a ∈ db.alerts, a.pinned = true →
      a ∈ (enforceAlertRetention s3f db userEmail max).1.alerts) ∧
    (∀ a ∈ db.alerts, a ∉ (enforceAlertRetention s3f db userEmail max).1.alerts →
      a.userEmail = safeLower userEmail ∧ a.pinned = false) ∧
    (max < (accountAlerts db userEmail).length →
      (accountAlerts (enforceAlertRetention s3f db userEmail max).1 userEmail).length =
        (accountAlerts db userEmail).length -
          min ((accountAlerts db userEmail).length - max)
            (unprotectedAlerts db userEmail).length) ∧
    (∀ a ∈ db.alerts, a ∉ (enforceAlertRetention s3f db userEmail max).1.alerts →
      ∀ b ∈ (enforceAlertRetention s3f db userEmail max).1.alerts,
        b.userEmail = safeLower userEmail → b.pinned = false →
        a.timestamp ≤ b.timestamp) ∧
    (max < (accountAlerts db userEmail).length →
      (unprotectedAlerts db userEmail).length = (accountAlerts db userEmail).length →
      (accountAlerts (enforceAlertRetention s3f db userEmail max).1 userEmail).length =
        max) := by
  by_cases hle : (accountAlerts db userEmail).length ≤ max
  · have henf := enforce_eq_of_le s3f db userEmail max
      (by simpa [accountAlerts] using hle)
    refine ⟨fun _ => by rw [henf], ?_, ?_, ?_, ?_, ?_⟩
    · intro a ha _; rw [henf]; exact ha
    · intro a ha hno; rw [henf] at hno; exact absurd ha hno
    · intro hgt; exact absurd hgt (not_lt.mpr hle)
    · intro a ha hno; rw [henf] at hno; exact absurd ha hno
    · intro hgt _; exact absurd hgt (not_lt.mpr hle)
  · have hgt : ¬ (db.alerts.filter
        (fun a => a.userEmail == safeLower userEmail)).length ≤ max := by
      simpa [accountAlerts] using hle
    have henf := enforce_eq_of_gt s3f db userEmail max hgt
    simp only [accountAlerts, unprotectedAlerts]
    have hmem : ∀ a : Alert,
        a ∈ (enforceAlertRetention s3f db userEmail max).1.alerts ↔
          a ∈ db.alerts ∧ a.id ∉
            (retentionVictims db (safeLower userEmail)
              ((db.alerts.filter
                (fun a => a.userEmail == safeLower userEmail)).length - max)).map
                  Alert.id := by
      intro a
      rw [henf]
      simp [List.mem_filter]
    have hVprop : ∀ x ∈ retentionVictims db (safeLower userEmail)
        ((db.alerts.filter
          (fun a => a.userEmail == safeLower userEmail)).length - max),
        x ∈ db.alerts ∧ x.userEmail = safeLower userEmail ∧ x.pinned = false :=
      fun x hx =>
        (mem_unprotected_iff _ _ _).mp (retentionVictims_subset _ _ _ x hx)
    have hvicmem : ∀ a ∈ db.alerts, a.id ∈
        (retentionVictims db (safeLower userEmail)
          ((db.alerts.filter
            (fun a => a.userEmail == safeLower userEmail)).length - max)).map
              Alert.id →
        a ∈ retentionVictims db (safeLower userEmail)
          ((db.alerts.filter
            (fun a => a.userEmail == safeLower userEmail)).length - max) := by
      intro a ha hida
      obtain ⟨x, hxV, hxid⟩ := List.mem_map.mp hida
      have hxdb : x ∈ db.alerts := (hVprop x hxV).1
      have heq : a = x :=
        List.inj_on_of_nodup_map hId ha hxdb (by rw [hxid])
      rw [heq]; exact hxV
    have hremoved : ∀ a ∈ db.alerts,
        a ∉ (enforceAlertRetention s3f db userEmail max).1.alerts →
        a.userEmail = safeLower userEmail ∧ a.pinned = false := by
      intro a ha hno
      have hida : a.id ∈
          (retentionVictims db (safeLower userEmail)
            ((db.alerts.filter
              (fun a => a.userEmail == safeLower userEmail)).length - max)).map
                Alert.id := by
        by_contra h
        exact hno ((hmem a).mpr ⟨ha, h⟩)
      have haV := hvicmem a ha hida
      exact ⟨(hVprop a haV).2.1, (hVprop a haV).2.2⟩
    have hcount : max < (db.alerts.filter
          (fun a => a.userEmail == safeLower userEmail)).length →
        (((enforceAlertRetention s3f db userEmail max).1.alerts.filter
          (fun a => a.userEmail == safeLower userEmail)).length =
          (db.alerts.filter
            (fun a => a.userEmail == safeLower userEmail)).length -
            min ((db.alerts.filter
              (fun a => a.userEmail == safeLower userEmail)).length - max)
              (db.alerts.filter
                (fun a => a.userEmail == safeLower userEmail &&
                  a.pinned == false)).length) := by
      intro _
      have hA : ((db.alerts.filter
          (fun a => a.userEmail == safeLower userEmail)).map Alert.id).Nodup :=
        List.Nodup.sublist ((List.filter_sublist _).map Alert.id) hId
      have hvnodup := retentionVictims_map_id_nodup db (safeLower userEmail)
        ((db.alerts.filter
          (fun a => a.userEmail == safeLower userEmail)).length - max) hId
      have hsubA : ∀ i ∈ (retentionVictims db (safeLower userEmail)
          ((db.alerts.filter
            (fun a => a.userEmail == safeLower userEmail)).length - max)).map
              Alert.id,
          i ∈ (db.alerts.filter
            (fun a => a.userEmail == safeLower userEmail)).map Alert.id := by
        intro i hi
        obtain ⟨x, hxV, hxid⟩ := List.mem_map.mp hi
        have hx := hVprop x hxV
        have hxA : x ∈ db.alerts.filter
            (fun a => a.userEmail == safeLower userEmail) :=
          List.mem_filter.mpr ⟨hx.1, by simp [hx.2.1]⟩
        exact hxid ▸ List.mem_map_of_mem Alert.id hxA
      have key : ((db.alerts.filter (fun a => decide (a.id ∉
            (retentionVictims db (safeLower userEmail)
              ((db.alerts.filter
                (fun a => a.userEmail == safeLower userEmail)).length - max)).map
                  Alert.id))).filter
            (fun a => a.userEmail == safeLower userEmail)).length =
          (db.alerts.filter
            (fun a => a.userEmail == safeLower userEmail)).length -
            ((retentionVictims db (safeLower userEmail)
              ((db.alerts.filter
                (fun a => a.userEmail == safeLower userEmail)).length - max)).map
                  Alert.id).length := by
        rw [List.filter_filter]
        have hswap : db.alerts.filter
            (fun a => (a.userEmail == safeLower userEmail) && decide (a.id ∉
              (retentionVictims db (safeLower userEmail)
                ((db.alerts.filter
                  (fun a => a.userEmail == safeLower userEmail)).length - max)).map
                    Alert.id)) =
            (db.alerts.filter
              (fun a => a.userEmail == safeLower userEmail)).filter
              (fun a => decide (a.id ∉
                (retentionVictims db (safeLower userEmail)
                  ((db.alerts.filter
                    (fun a => a.userEmail == safeLower userEmail)).length - max)).map
                      Alert.id)) := by
          rw [List.filter_filter]
          exact (List.filter_congr (fun x _ => Bool.and_comm _ _)).symm
        rw [hswap]
        exact length_filter_id_not_mem _ _ hA hvnodup hsubA
      have hvlen : ((retentionVictims db (safeLower userEmail)
          ((db.alerts.filter
            (fun a => a.userEmail == safeLower userEmail)).length - max)).map
              Alert.id).length =
          min ((db.alerts.filter
            (fun a => a.userEmail == safeLower userEmail)).length - max)
            (db.alerts.filter
              (fun a => a.userEmail == safeLower userEmail &&
                a.pinned == false)).length := by
        rw [List.length_map, retentionVictims, List.length_take,
          (List.perm_insertionSort tsLe _).length_eq]
      rw [henf]
      simp only [List.filter_filter] at key ⊢
      rw [← hvlen]
      exact key
    refine ⟨?_, ?_, hremoved, hcount, ?_, ?_⟩
    · intro h; exact absurd h hle
    · intro a ha hpin
      by_contra hno
      have h2 := (hremoved a ha hno).2
      rw [h2] at hpin
      exact Bool.false_ne_true hpin
    · intro a ha hno b hb hbe hbp
      have hida : a.id ∈
          (retentionVictims db (safeLower userEmail)
            ((db.alerts.filter
              (fun a => a.userEmail == safeLower userEmail)).length - max)).map
                Alert.id := by
        by_contra h
        exact hno ((hmem a).mpr ⟨ha, h⟩)
      have haV := hvicmem a ha hida
      have hbdb : b ∈ db.alerts := ((hmem b).mp hb).1
      have hbid := ((hmem b).mp hb).2
      have hbU : b ∈ db.alerts.filter
          (fun a => a.userEmail == safeLower userEmail && a.pinned == false) :=
        (mem_unprotected_iff _ _ _).mpr ⟨hbdb, hbe, hbp⟩
      have hbS : b ∈ List.insertionSort tsLe
          (db.alerts.filter
            (fun a => a.userEmail == safeLower userEmail && a.pinned == false)) :=
        ((List.perm_insertionSort tsLe _).mem_iff).mpr hbU
      have hbV : b ∉ retentionVictims db (safeLower userEmail)
          ((db.alerts.filter
            (fun a => a.userEmail == safeLower userEmail)).length - max) :=
        fun h => hbid (List.mem_map_of_mem Alert.id h)
      have hbdrop : b ∈ (List.insertionSort tsLe
          (db.alerts.filter
            (fun a => a.userEmail == safeLower userEmail &&
              a.pinned == false))).drop
          ((db.alerts.filter
            (fun a => a.userEmail == safeLower userEmail)).length - max) := by
        have hsplit := List.take_append_drop
          ((db.alerts.filter
            (fun a => a.userEmail == safeLower userEmail)).length - max)
          (List.insertionSort tsLe
            (db.alerts.filter
              (fun a => a.userEmail == safeLower userEmail &&
                a.pinned == false)))
        have hb2 : b ∈ (List.insertionSort tsLe
            (db.alerts.filter
              (fun a => a.userEmail == safeLower userEmail &&
                a.pinned == false))).take
            ((db.alerts.filter
              (fun a => a.userEmail == safeLower userEmail)).length - max) ++
            (List.insertionSort tsLe
              (db.alerts.filter
                (fun a => a.userEmail == safeLower userEmail &&
                  a.pinned == false))).drop
            ((db.alerts.filter
              (fun a => a.userEmail == safeLower userEmail)).length - max) := by
          rw [hsplit]; exact hbS
        rcases List.mem_append.mp hb2 with h | h
        · exact absurd h hbV
        · exact h
      exact (List.sorted_insertionSort tsLe _).rel_of_mem_take_of_mem_drop
        haV hbdrop
    · intro hmax hU
      have h4 := hcount hmax
      have hminle : (db.alerts.filter
          (fun a => a.userEmail == safeLower userEmail)).length - max ≤
          (db.alerts.filter
            (fun a => a.userEmail == safeLower userEmail &&
              a.pinned == false)).length := by
        omega
      rw [min_eq_left hminle] at h4
      omega

/-! ## Concrete example data for witnesses -/

/-- An S3-delete oracle under which every delete succeeds. -/
def noFail : String → Bool := fun _ => false

/-- An S3-delete oracle under which every delete throws. -/
def allFail : String → Bool := fun _ => true

/-- A concrete ledger row for the account `a@b`. -/
def exAlert (i : Nat) (ts : Int) (p : Bool) : Alert :=
  { id := i, userEmail := "a@b", ty := "unknown", imageKey := some (toString i),
    channel := "email", cost := 1, zoneId := none, cameraId := none,
    pinned := p, timestamp := ts }

/-- Ledger with three unpinned rows (timestamps 10, 5, 1) and one pinned
row (timestamp 0) for account `a@b`. -/
def retDb : Db :=
  { alerts := [exAlert 1 10 false, exAlert 2 0 true, exAlert 3 5 false,
               exAlert 4 1 false],
    zoneRules := [], zones := [], nextId := 5 }

/-- Ledger with five unpinned rows for account `a@b`. -/
def retDbAll : Db :=
  { alerts := [exAlert 1 10 false, exAlert 2 0 false, exAlert 3 5 false,
               exAlert 4 1 false, exAlert 5 7 false],
    zoneRules := [], zones := [], nextId := 6 }

/-- C1 witness: on `retDb` (4 rows, one pinned, `max = 2`) the pinned row
survives and the account drops to `4 - min 2 3` rows; on `retDbAll`
(5 unpinned rows, `max = 3`) exactly 3 rows remain. -/
theorem C1_retention_enforce_witness :
    exAlert 2 0 true ∈
      (enforceAlertRetention noFail retDb "a@b" 2).1.alerts ∧
    (accountAlerts (enforceAlertRetention noFail retDb "a@b" 2).1
        "a@b").length =
      (accountAlerts retDb "a@b").length -
        min ((accountAlerts retDb "a@b").length - 2)
          (unprotectedAlerts retDb "a@b").length ∧
    (accountAlerts (enforceAlertRetention noFail retDbAll "a@b" 3).1
        "a@b").length = 3 := by
  have h := C1_retention_enforce noFail retDb "a@b" 2 (by decide)
  have h' := C1_retention_enforce noFail retDbAll "a@b" 3 (by decide)
  exact ⟨h.2.1 (exAlert 2 0 true) (by decide) rfl, h.2.2.2.1 (by decide),
    h'.2.2.2.2.2 (by decide) (by decide)⟩

/-! ## Path equations for the pipeline -/

theorem pipeline_eq_cooldown (env : PipelineEnv) (db : Db) (userEmail : String)
    (zoneId cameraId : Option Nat) (channel : String)
    (hmail : ¬ safeLower userEmail = "")
    (hb : env.bucketSet = true) (hcol : env.collectionSet = true)
    (hsup : shouldCooldownUnknown db env.now env.defaultCooldown zoneId = true) :
    processAlertPipeline env db userEmail zoneId cameraId channel =
      (.skippedCooldown zoneId, db, []) := by
  simp [processAlertPipeline, hmail, hb, hcol, hsup]

theorem pipeline_eq_policy (env : PipelineEnv) (db : Db) (userEmail : String)
    (zoneId cameraId : Option Nat) (channel : String)
    (hmail : ¬ safeLower userEmail = "")
    (hb : env.bucketSet = true) (hcol : env.collectionSet = true)
    (hsup : shouldCooldownUnknown db env.now env.defaultCooldown zoneId = false)
    (hallow : ruleAllowsAlert db zoneId
      (decide (0 < (env.matcherResult).getD 0)) = false) :
    processAlertPipeline env db userEmail zoneId cameraId channel =
      (.skippedPolicy zoneId
        (if decide (0 < (env.matcherResult).getD 0) then "known" else "unknown"),
       db, [Effect.matcherCall]) := by
  simp [processAlertPipeline, hmail, hb, hcol, hsup, hallow]

theorem pipeline_eq_s3fail (env : PipelineEnv) (db : Db) (userEmail : String)
    (zoneId cameraId : Option Nat) (channel : String)
    (hmail : ¬ safeLower userEmail = "")
    (hb : env.bucketSet = true) (hcol : env.collectionSet = true)
    (hsup : shouldCooldownUnknown db env.now env.defaultCooldown zoneId = false)
    (hallow : ruleAllowsAlert db zoneId
      (decide (0 < (env.matcherResult).getD 0)) = true)
    (hs3 : env.s3PutFails = true) :
    processAlertPipeline env db userEmail zoneId cameraId channel =
      (.errorS3, db, [Effect.matcherCall, Effect.s3Put env.newKey false]) := by
  simp [processAlertPipeline, hmail, hb, hcol, hsup, hallow, hs3]

/-- The row inserted by the accepted path. -/
def insertedAlert (env : PipelineEnv) (db : Db) (userEmail : String)
    (zoneId cameraId : Option Nat) (channel : String) : Alert :=
  { id := db.nextId, userEmail := safeLower userEmail,
    ty := if decide (0 < (env.matcherResult).getD 0) then "known" else "unknown",
    imageKey := some env.newKey,
    channel := if channel = "" then "email" else channel,
    cost := resolveCost db zoneId, zoneId := zoneId, cameraId := cameraId,
    pinned := false, timestamp := env.now }

theorem pipeline_eq_accepted (env : PipelineEnv) (db : Db) (userEmail : String)
    (zoneId cameraId : Option Nat) (channel : String)
    (hmail : ¬ safeLower userEmail = "")
    (hb : env.bucketSet = true) (hcol : env.collectionSet = true)
    (hsup : shouldCooldownUnknown db env.now env.defaultCooldown zoneId = false)
    (hallow : ruleAllowsAlert db zoneId
      (decide (0 < (env.matcherResult).getD 0)) = true)
    (hs3 : env.s3PutFails = false) :
    processAlertPipeline env db userEmail zoneId cameraId channel =
      (.accepted db.nextId
        (if decide (0 < (env.matcherResult).getD 0) then "known" else "unknown")
        ((env.matcherResult).getD 0) (resolveCost db zoneId) zoneId cameraId
        env.newKey,
       (enforceAlertRetention env.s3DeleteFails
         { db with
             alerts := db.alerts ++
               [insertedAlert env db userEmail zoneId cameraId channel],
             nextId := db.nextId + 1 }
         (safeLower userEmail) env.maxAlerts).1,
       [Effect.matcherCall, Effect.s3Put env.newKey true,
         Effect.ledgerInsert db.nextId] ++
         (enforceAlertRetention env.s3DeleteFails
           { db with
               alerts := db.alerts ++
                 [insertedAlert env db userEmail zoneId cameraId channel],
               nextId := db.nextId + 1 }
           (safeLower userEmail) env.maxAlerts).2 ++
         (if decide (0 < (env.matcherResult).getD 0) then []
          else [Effect.emailSend (safeLower userEmail)])) := by
  simp [processAlertPipeline, insertedAlert, hmail, hb, hcol, hsup, hallow, hs3]

theorem pipeline_policy_effects (env : PipelineEnv) (db : Db)
    (userEmail : String) (zoneId cameraId : Option Nat) (channel : String)
    (zid : Option Nat) (t : String) :
    (processAlertPipeline env db userEmail zoneId cameraId channel).1 =
      .skippedPolicy zid t →
    (processAlertPipeline env db userEmail zoneId cameraId channel).2.2 =
      [Effect.matcherCall] := by
  simp only [processAlertPipeline]
  repeat' split
  all_goals intro h
  all_goals first | rfl | cases h

/-! ## Claim C2 -/

/-- C2: with a zone rule of cooldown `c ≥ 1` minutes (or the global default
5 when no rule exists), the tracker reports suppressed iff an `unknown`
alert for that zone exists with timestamp at least `now - c` minutes; an
absent zone id is never suppressed. -/
theorem C2_cooldown_suppression (db : Db) (now : Int) (z : Nat) (c : Int)
    (hc : 1 ≤ c)
    (hrule : (∃ r, getZoneRule db z = some r ∧ r.alertInterval = c) ∨
      (getZoneRule db z = none ∧ c = 5)) :
    (shouldCooldownUnknown db now 5 (some z) = true ↔
      ∃ a ∈ db.alerts, a.zoneId = some z ∧ a.ty = "unknown" ∧
        now - c * 60 * 1000 ≤ a.timestamp) ∧
    shouldCooldownUnknown db now 5 none = false := by
  refine ⟨?_, rfl⟩
  have hmin : (match getZoneRule db z with
      | some r => if r.alertInterval = 0 then (5 : Int) else r.alertInterval
      | none => (5 : Int)) = c := by
    rcases hrule with ⟨r, hr, hci⟩ | ⟨hr, hc5⟩
    · rw [hr]
      simp only [hci]
      rw [if_neg (by omega)]
    · rw [hr, hc5]
  simp only [shouldCooldownUnknown, hmin]
  rw [if_neg (by omega : ¬ c ≤ 0)]
  simp [List.any_eq_true, and_assoc]

/-- Zone 7 has a 10-minute cooldown rule and one prior `unknown` alert at
time 0 (`cdDb`). -/
def cdDb : Db :=
  { alerts := [{ id := 1, userEmail := "a@b", ty := "unknown",
                 imageKey := some "k", channel := "email", cost := 1,
                 zoneId := some 7, cameraId := none, pinned := false,
                 timestamp := 0 }],
    zoneRules := [(7, ⟨"unknown_only", 10⟩)], zones := [], nextId := 2 }

/-- C2 witness: on `cdDb` a check 9 minutes after the alert is suppressed,
one 11 minutes after is not, and a missing zone id is never suppressed. -/
theorem C2_cooldown_suppression_witness :
    shouldCooldownUnknown cdDb (9 * 60 * 1000) 5 (some 7) = true ∧
    shouldCooldownUnknown cdDb (11 * 60 * 1000) 5 (some 7) = false ∧
    shouldCooldownUnknown cdDb (9 * 60 * 1000) 5 none = false := by
  have h9 := C2_cooldown_suppression cdDb (9 * 60 * 1000) 7 10 (by decide)
    (Or.inl ⟨⟨"unknown_only", 10⟩, by decide, rfl⟩)
  have h11 := C2_cooldown_suppression cdDb (11 * 60 * 1000) 7 10 (by decide)
    (Or.inl ⟨⟨"unknown_only", 10⟩, by decide, rfl⟩)
  refine ⟨h9.1.mpr (by decide), ?_, h9.2⟩
  rcases Bool.eq_false_or_eq_true
    (shouldCooldownUnknown cdDb (11 * 60 * 1000) 5 (some 7)) with h | h
  · exact absurd (h11.1.mp h) (by decide)
  · exact h

/-! ## Claim C3 -/

/-- C3: a suppressed zone short-circuits the whole pipeline: the call
returns `skipped/cooldown`, the state is unchanged, and the trace is empty
(no matcher call, no object-store write, no ledger insert, no email). -/
theorem C3_cooldown_short_circuit (env : PipelineEnv) (db : Db)
    (userEmail : String) (zoneId cameraId : Option Nat) (channel : String)
    (hmail : ¬ safeLower userEmail = "")
    (hb : env.bucketSet = true) (hcol : env.collectionSet = true)
    (hsup : shouldCooldownUnknown db env.now env.defaultCooldown zoneId = true) :
    processAlertPipeline env db userEmail zoneId cameraId channel =
      (.skippedCooldown zoneId, db, []) ∧
    Effect.matcherCall ∉
      (processAlertPipeline env db userEmail zoneId cameraId channel).2.2 ∧
    (∀ k b, Effect.s3Put k b ∉
      (processAlertPipeline env db userEmail zoneId cameraId channel).2.2) ∧
    (∀ i, Effect.ledgerInsert i ∉
      (processAlertPipeline env db userEmail zoneId cameraId channel).2.2) ∧
    (∀ a, Effect.emailSend a ∉
      (processAlertPipeline env db userEmail zoneId cameraId channel).2.2) ∧
    (processAlertPipeline env db userEmail zoneId cameraId channel).2.1 = db := by
  have h := pipeline_eq_cooldown env db userEmail zoneId cameraId channel
    hmail hb hcol hsup
  rw [h]
  simp

/-- Pipeline environment 9 minutes after `cdDb`'s only alert (zone 7 is
then inside its 10-minute cooldown). -/
def envC3 : PipelineEnv :=
  ⟨true, true, some 1, false, noFail, 9 * 60 * 1000, "kX", 5, 100⟩

/-- C3 witness: on `cdDb` with zone 7 in cooldown, ingestion is skipped
with an empty trace and unchanged state. -/
theorem C3_cooldown_short_circuit_witness :
    processAlertPipeline envC3 cdDb "a@b" (some 7) none "email" =
      (.skippedCooldown (some 7), cdDb, []) := by
  have h := C3_cooldown_short_circuit envC3
    cdDb "a@b" (some 7) none "email" (by decide) rfl rfl (by decide)
  exact h.1

/-! ## Claim C4 -/

/-- C4: when the matcher throws, the event is classified `unknown` and
still reaches `skipped/policy` or `accepted` (never a failure) provided
the storage write succeeds. -/
theorem C4_matcher_fail_open (env : PipelineEnv) (db : Db)
    (userEmail : String) (zoneId cameraId : Option Nat) (channel : String)
    (hmail : ¬ safeLower userEmail = "")
    (hb : env.bucketSet = true) (hcol : env.collectionSet = true)
    (hsup : shouldCooldownUnknown db env.now env.defaultCooldown zoneId = false)
    (hmatch : env.matcherResult = none)
    (hs3 : env.s3PutFails = false) :
    ((processAlertPipeline env db userEmail zoneId cameraId channel).1 =
        .skippedPolicy zoneId "unknown" ∨
      (processAlertPipeline env db userEmail zoneId cameraId channel).1 =
        .accepted db.nextId "unknown" 0 (resolveCost db zoneId) zoneId cameraId
          env.newKey) ∧
    resultError (processAlertPipeline env db userEmail zoneId cameraId
      channel).1 = none := by
  have hk : decide (0 < (env.matcherResult).getD 0) = false := by
    simp [hmatch]
  by_cases hallow : ruleAllowsAlert db zoneId
      (decide (0 < (env.matcherResult).getD 0)) = true
  · have h := pipeline_eq_accepted env db userEmail zoneId cameraId channel
      hmail hb hcol hsup hallow hs3
    rw [h]
    refine ⟨Or.inr ?_, rfl⟩
    rw [hk, hmatch]
    rfl
  · have hallow' : ruleAllowsAlert db zoneId
        (decide (0 < (env.matcherResult).getD 0)) = false :=
      Bool.not_eq_true _ ▸ Bool.eq_false_iff.mpr hallow
    have h := pipeline_eq_policy env db userEmail zoneId cameraId channel
      hmail hb hcol hsup hallow'
    rw [h]
    refine ⟨Or.inl ?_, rfl⟩
    rw [hk]
    rfl

/-- Pipeline environment in which the matcher throws and storage works,
30 minutes after `cdDb`'s only alert. -/
def envC4 : PipelineEnv :=
  ⟨true, true, none, false, noFail, 30 * 60 * 1000, "kX", 5, 100⟩

/-- C4 witness: on `cdDb` (zone 7, `unknown_only` rule) with a throwing
matcher, the event is accepted as `unknown` with no error. -/
theorem C4_matcher_fail_open_witness :
    ((processAlertPipeline envC4 cdDb "a@b" (some 7) none "email").1 =
        .skippedPolicy (some 7) "unknown" ∨
      (processAlertPipeline envC4 cdDb "a@b" (some 7) none "email").1 =
        .accepted cdDb.nextId "unknown" 0 (resolveCost cdDb (some 7)) (some 7)
          none envC4.newKey) ∧
    resultError (processAlertPipeline envC4 cdDb "a@b" (some 7) none
      "email").1 = none :=
  C4_matcher_fail_open envC4 cdDb "a@b" (some 7) none "email" (by decide)
    rfl rfl (by decide) rfl rfl

/-! ## Claim C5 -/

/-- C5: a failing object-store write makes the event fail: the result is
the storage error, the ledger (whole state) is unchanged, and no ledger
insert appears in the trace. -/
theorem C5_storage_failure_fatal (env : PipelineEnv) (db : Db)
    (userEmail : String) (zoneId cameraId : Option Nat) (channel : String)
    (hmail : ¬ safeLower userEmail = "")
    (hb : env.bucketSet = true) (hcol : env.collectionSet = true)
    (hsup : shouldCooldownUnknown db env.now env.defaultCooldown zoneId = false)
    (hallow : ruleAllowsAlert db zoneId
      (decide (0 < (env.matcherResult).getD 0)) = true)
    (hs3 : env.s3PutFails = true) :
    (processAlertPipeline env db userEmail zoneId cameraId channel).1 =
      .errorS3 ∧
    (processAlertPipeline env db userEmail zoneId cameraId channel).2.1 = db ∧
    (∀ i, Effect.ledgerInsert i ∉
      (processAlertPipeline env db userEmail zoneId cameraId channel).2.2) := by
  have h := pipeline_eq_s3fail env db userEmail zoneId cameraId channel
    hmail hb hcol hsup hallow hs3
  rw [h]
  simp

/-- Pipeline environment whose S3 put fails, 30 minutes after `cdDb`'s
only alert, with a matcher returning no matches. -/
def envC5 : PipelineEnv :=
  ⟨true, true, some 0, true, noFail, 30 * 60 * 1000, "kX", 5, 100⟩

/-- C5 witness: on `cdDb` with a failing S3 put, the call fails, the state
is unchanged and nothing is inserted. -/
theorem C5_storage_failure_fatal_witness :
    (processAlertPipeline envC5 cdDb "a@b" (some 7) none "email").1 =
      .errorS3 ∧
    (processAlertPipeline envC5 cdDb "a@b" (some 7) none "email").2.1 = cdDb ∧
    Effect.ledgerInsert 2 ∉
      (processAlertPipeline envC5 cdDb "a@b" (some 7) none "email").2.2 := by
  have h := C5_storage_failure_fatal envC5 cdDb "a@b" (some 7) none "email"
    (by decide) rfl rfl (by decide) (by decide) rfl
  exact ⟨h.1, h.2.1, h.2.2 2⟩

/-! ## Claim C6 -/

/-- C6: the zone rule filter allows everything for an absent zone, an
absent rule or a `mixed` rule; a `known_only` rule allows exactly known
persons; an `unknown_only` rule allows exactly unknown persons; and a
policy skip always happens after the matcher has been called. -/
theorem C6_zone_rule_filter (db : Db) (z : Nat) (isKnown : Bool)
    (env : PipelineEnv) (db2 : Db) (userEmail : String)
    (zoneId cameraId : Option Nat) (channel : String) :
    ruleAllowsAlert db none isKnown = true ∧
    (getZoneRule db z = none → ruleAllowsAlert db (some z) isKnown = true) ∧
    (∀ r, getZoneRule db z = some r → r.ruleType = "mixed" →
      ruleAllowsAlert db (some z) isKnown = true) ∧
    (∀ r, getZoneRule db z = some r → r.ruleType = "known_only" →
      ruleAllowsAlert db (some z) isKnown = isKnown) ∧
    (∀ r, getZoneRule db z = some r → r.ruleType = "unknown_only" →
      ruleAllowsAlert db (some z) isKnown = !isKnown) ∧
    (∀ zid t,
      (processAlertPipeline env db2 userEmail zoneId cameraId channel).1 =
        .skippedPolicy zid t →
      Effect.matcherCall ∈
        (processAlertPipeline env db2 userEmail zoneId cameraId channel).2.2) := by
  refine ⟨rfl, ?_, ?_, ?_, ?_, ?_⟩
  · intro h; simp only [ruleAllowsAlert, h]; rfl
  · intro r hr hm; simp only [ruleAllowsAlert, hr, hm]; rfl
  · intro r hr hk; simp only [ruleAllowsAlert, hr, hk]
    cases isKnown <;> rfl
  · intro r hr hu; simp only [ruleAllowsAlert, hr, hu]
    cases isKnown <;> rfl
  · intro zid t h
    rw [pipeline_policy_effects env db2 userEmail zoneId cameraId channel
      zid t h]
    simp

/-- Zone 1 has a `known_only` rule. -/
def ruleDb : Db :=
  { alerts := [], zoneRules := [(1, ⟨"known_only", 10⟩)], zones := [],
    nextId := 1 }

/-- C6 witness: under `ruleDb`'s `known_only` rule, unknown persons are
blocked and known persons allowed; an absent zone is always allowed. -/
theorem C6_zone_rule_filter_witness :
    ruleAllowsAlert ruleDb (some 1) false = false ∧
    ruleAllowsAlert ruleDb (some 1) true = true ∧
    ruleAllowsAlert ruleDb none false = true := by
  have hf := C6_zone_rule_filter ruleDb 1 false envC4 cdDb "a@b" (some 7)
    none "email"
  have ht := C6_zone_rule_filter ruleDb 1 true envC4 cdDb "a@b" (some 7)
    none "email"
  exact ⟨hf.2.2.2.1 ⟨"known_only", 10⟩ (by decide) rfl,
    ht.2.2.2.1 ⟨"known_only", 10⟩ (by decide) rfl, hf.1⟩

/-! ## Claim C7 -/

theorem getZoneRule_upsert_self (db : Db) (zoneId : Nat) (r : ZoneRule) :
    getZoneRule (upsertZoneRule db zoneId r) zoneId = some r := by
  simp only [getZoneRule, upsertZoneRule, List.find?_append]
  have h1 : (db.zoneRules.filter (fun p => p.1 != zoneId)).find?
      (fun p => p.1 == zoneId) = none := by
    rw [List.find?_eq_none]
    intro x hx
    have := (List.mem_filter.mp hx).2
    simp only [bne_iff_ne, ne_eq, decide_eq_true_eq] at this ⊢
    simpa using this
  rw [h1]
  simp

theorem getZoneRule_upsert_other (db : Db) (zoneId : Nat) (r : ZoneRule)
    (z' : Nat) (h : z' ≠ zoneId) :
    getZoneRule (upsertZoneRule db zoneId r) z' = getZoneRule db z' := by
  simp only [getZoneRule, upsertZoneRule, List.find?_append]
  have h2 : ([(zoneId, r)].find? (fun p => p.1 == z')) = none := by
    simp [Ne.symm h]
  have h1 : (db.zoneRules.filter (fun p => p.1 != zoneId)).find?
      (fun p => p.1 == z') = db.zoneRules.find? (fun p => p.1 == z') := by
    induction db.zoneRules with
    | nil => rfl
    | cons a tl ih =>
      by_cases ha : a.1 = z'
      · have hq : (a.1 != zoneId) = true := by
          simp [ha, h]
        simp [List.filter_cons, hq, List.find?_cons, ha, h]
      · by_cases hq : (a.1 != zoneId) = true
        · simp [List.filter_cons, hq, List.find?_cons, ha, ih, h]
        · have haz : a.1 = zoneId := by
            simpa using hq
          simp [List.filter_cons, hq, List.find?_cons, ha, ih, haz,
            Ne.symm h, h]
  rw [h1, h2]
  cases db.zoneRules.find? (fun p => p.1 == z') <;> rfl

theorem upsert_unique_rule (db : Db) (zoneId : Nat) (r : ZoneRule) :
    ((upsertZoneRule db zoneId r).zoneRules.filter
      (fun p => p.1 == zoneId)).length = 1 := by
  simp only [upsertZoneRule, List.filter_append, List.filter_filter]
  have h1 : db.zoneRules.filter
      (fun p => (p.1 == zoneId) && (p.1 != zoneId)) = [] := by
    rw [List.filter_eq_nil_iff]
    intro a _
    by_cases h : a.1 = zoneId <;> simp [h]
  rw [h1]
  simp

/-- C7 counterexample: the mounted `server.js` upsert handler stores an
out-of-range interval unchanged: after `alert_interval = 5000` the stored
rule's interval is 5000, which is not within `[1, 1440]`. -/
theorem C7_upsert_counterexample :
    (zoneRulesUpsertServer ⟨[], [], [], 1⟩ true 1 "mixed" (some 5000)).1 =
      .okSaved ∧
    getZoneRule (zoneRulesUpsertServer ⟨[], [], [], 1⟩ true 1 "mixed"
      (some 5000)).2 1 = some ⟨"mixed", 5000⟩ ∧
    ¬ ((5000 : Int) ≤ 1440) := by
  refine ⟨by decide, by decide, by decide⟩

/-- C7 (amended): both upsert handlers validate the rule type against
`{known_only, unknown_only, mixed}` and replace the zone's rule (leaving
exactly one rule for the zone and other zones untouched); the
`routes/zone_rules.js` variant clamps the interval into `[1, 1440]`, but
the handler mounted in `server.js` stores the requested interval without
clamping. -/
theorem C7_upsert_validate_replace (db : Db) (ownerOk : Bool) (zoneId : Nat)
    (ruleType : String) (alertInterval : Option Int)
    (hz : zoneId ≠ 0)
    (hrt : ruleType ∈ ["known_only", "unknown_only", "mixed"])
    (hown : ownerOk = true) :
    (zoneRulesUpsertServer db ownerOk zoneId ruleType alertInterval).1 =
      .okSaved ∧
    (∃ r : ZoneRule,
      getZoneRule (zoneRulesUpsertServer db ownerOk zoneId ruleType
        alertInterval).2 zoneId = some r ∧ r.ruleType = ruleType) ∧
    (∀ z', z' ≠ zoneId →
      getZoneRule (zoneRulesUpsertServer db ownerOk zoneId ruleType
        alertInterval).2 z' = getZoneRule db z') ∧
    ((zoneRulesUpsertServer db ownerOk zoneId ruleType
        alertInterval).2.zoneRules.filter (fun p => p.1 == zoneId)).length = 1 ∧
    (∃ r : ZoneRule,
      getZoneRule (zoneRulesUpsertRouter db ownerOk zoneId ruleType
        alertInterval).2 zoneId = some r ∧ r.ruleType = ruleType ∧
      1 ≤ r.alertInterval ∧ r.alertInterval ≤ 1440) ∧
    (∀ rt, ¬ rt ∈ ["known_only", "unknown_only", "mixed"] →
      (zoneRulesUpsertServer db ownerOk zoneId rt alertInterval).2 = db ∧
      ∃ m, (zoneRulesUpsertServer db ownerOk zoneId rt alertInterval).1 =
        .badRequest m) := by
  have hne : ruleType ≠ "" := by
    rintro rfl
    simp at hrt
  have hmem : (["known_only", "unknown_only", "mixed"].contains ruleType) =
      true := List.elem_eq_true_of_mem hrt
  have hcond : ¬ (zoneId = 0 ∨ ruleType = "") := by
    push_neg
    exact ⟨hz, hne⟩
  have hsrv : zoneRulesUpsertServer db ownerOk zoneId ruleType alertInterval =
      (.okSaved, upsertZoneRule db zoneId
        ⟨ruleType, serverInterval alertInterval⟩) := by
    simp only [zoneRulesUpsertServer]
    rw [if_neg hcond, hmem]
    simp [hown]
  have hrtr : zoneRulesUpsertRouter db ownerOk zoneId ruleType alertInterval =
      (.okSaved, upsertZoneRule db zoneId
        ⟨ruleType, routerInterval alertInterval⟩) := by
    simp only [zoneRulesUpsertRouter]
    rw [if_neg hcond, hmem]
    simp [hown]
  refine ⟨by rw [hsrv], ?_, ?_, ?_, ?_, ?_⟩
  · refine ⟨⟨ruleType, serverInterval alertInterval⟩, ?_, rfl⟩
    rw [hsrv]
    exact getZoneRule_upsert_self db zoneId _
  · intro z' hz'
    rw [hsrv]
    exact getZoneRule_upsert_other db zoneId _ z' hz'
  · rw [hsrv]
    exact upsert_unique_rule db zoneId _
  · refine ⟨⟨ruleType, routerInterval alertInterval⟩, ?_, rfl, ?_, ?_⟩
    · rw [hrtr]
      exact getZoneRule_upsert_self db zoneId _
    · exact le_max_left 1 _
    · have h1 : min (if (alertInterval).getD 10 = 0 then 10
          else (alertInterval).getD 10) 1440 ≤ (1440 : Int) := min_le_right _ _
      have h2 : (1 : Int) ≤ 1440 := by omega
      exact max_le h2 h1
  · intro rt hrtno
    by_cases hrtempty : rt = ""
    · subst hrtempty
      constructor
      · simp [zoneRulesUpsertServer]
      · exact ⟨"Missing rule data", by simp [zoneRulesUpsertServer]⟩
    · have h3 : ¬rt = "known_only" ∧ ¬rt = "unknown_only" ∧ ¬rt = "mixed" := by
        simpa using hrtno
      constructor
      · simp [zoneRulesUpsertServer, hz, hrtempty, h3]
      · exact ⟨"Invalid rule type",
          by simp [zoneRulesUpsertServer, hz, hrtempty, h3]⟩

/-! ## Claim C8 -/

theorem retentionEffects_split (s3f : String → Bool) :
    ∀ (vs : List Alert) (v : Alert), v ∈ vs →
    ∃ l₁ l₂, retentionEffects s3f vs = l₁ ++ Effect.ledgerDelete v.id :: l₂ ∧
      (∀ k, v.imageKey = some k → Effect.s3Delete k (!s3f k) ∈ l₁) := by
  intro vs
  induction vs with
  | nil => intro v hv; cases hv
  | cons w tl ih =>
    intro v hv
    rcases List.mem_cons.mp hv with rfl | hv'
    · refine ⟨(match v.imageKey with
        | some k => [Effect.s3Delete k (!s3f k)]
        | none => []), retentionEffects s3f tl, ?_, ?_⟩
      · rfl
      · intro k hk
        rw [hk]
        simp
    · obtain ⟨l₁, l₂, heq, hmem⟩ := ih v hv'
      refine ⟨(match w.imageKey with
        | some k => [Effect.s3Delete k (!s3f k)]
        | none => []) ++ Effect.ledgerDelete w.id :: l₁, l₂, ?_, ?_⟩
      · show (match w.imageKey with
          | some k => [Effect.s3Delete k (!s3f k)]
          | none => []) ++ Effect.ledgerDelete w.id :: retentionEffects s3f tl =
          _
        rw [heq]
        simp
      · intro k hk
        exact List.mem_append.mpr
          (Or.inr (List.mem_cons_of_mem _ (hmem k hk)))

theorem ledgerDelete_mem_retentionEffects (s3f : String → Bool) :
    ∀ (vs : List Alert) (i : Nat),
    Effect.ledgerDelete i ∈ retentionEffects s3f vs → ∃ v ∈ vs, v.id = i := by
  intro vs
  induction vs with
  | nil => intro i h; cases h
  | cons w tl ih =>
    intro i h
    have h' : Effect.ledgerDelete i ∈ (match w.imageKey with
        | some k => [Effect.s3Delete k (!s3f k)]
        | none => []) ++ Effect.ledgerDelete w.id :: retentionEffects s3f tl :=
      h
    rcases List.mem_append.mp h' with h1 | h2
    · cases hk : w.imageKey with
      | some k => rw [hk] at h1; simp at h1
      | none => rw [hk] at h1; cases h1
    · rcases List.mem_cons.mp h2 with heq | h3
      · have : i = w.id := by injection heq
        exact ⟨w, List.mem_cons_self _ _, this.symm⟩
      · obtain ⟨v, hv, hid⟩ := ih i h3
        exact ⟨v, List.mem_cons_of_mem _ hv, hid⟩

/-- C8: on both deletion paths the blob delete attempt precedes the ledger
row delete, and a failing blob delete never blocks the row delete. For the
manual route the whole trace is exhibited; for retention, every row
deletion in the trace is preceded by the S3 delete attempt of that row's
blob, and the resulting state is independent of which S3 deletes fail. -/
theorem C8_blob_delete_before_row_delete (s3f s3g : String → Bool) (db : Db)
    (userEmail : String) (max id : Nat) (row : Alert)
    (hfind : db.alerts.find? (fun a => a.id == id) = some row)
    (hown : safeLower row.userEmail = safeLower userEmail) :
    (∀ k, row.imageKey = some k →
      (deleteAlertRoute s3f db userEmail id).2.2 =
        [Effect.s3Delete k (!s3f k), Effect.ledgerDelete id]) ∧
    (row.imageKey = none →
      (deleteAlertRoute s3f db userEmail id).2.2 = [Effect.ledgerDelete id]) ∧
    (deleteAlertRoute s3f db userEmail id).2.1 =
      (deleteAlertRoute s3g db userEmail id).2.1 ∧
    (deleteAlertRoute s3f db userEmail id).1 = .okDeleted ∧
    (∀ i, Effect.ledgerDelete i ∈
        (enforceAlertRetention s3f db userEmail max).2 →
      ∃ a ∈ db.alerts, a.id = i ∧ a.pinned = false ∧
        ∃ l₁ l₂, (enforceAlertRetention s3f db userEmail max).2 =
          l₁ ++ Effect.ledgerDelete i :: l₂ ∧
          (∀ k, a.imageKey = some k → Effect.s3Delete k (!s3f k) ∈ l₁)) ∧
    (enforceAlertRetention s3f db userEmail max).1 =
      (enforceAlertRetention s3g db userEmail max).1 := by
  have hnot : ¬ (safeLower row.userEmail ≠ safeLower userEmail) :=
    fun hne => hne hown
  have hroutef : deleteAlertRoute s3f db userEmail id =
      (.okDeleted,
       { db with alerts := db.alerts.filter (fun a => a.id != id) },
       (match row.imageKey with
        | some k => [Effect.s3Delete k (!s3f k)]
        | none => []) ++ [Effect.ledgerDelete id]) := by
    simp only [deleteAlertRoute, hfind]
    rw [if_neg hnot]
  have hrouteg : deleteAlertRoute s3g db userEmail id =
      (.okDeleted,
       { db with alerts := db.alerts.filter (fun a => a.id != id) },
       (match row.imageKey with
        | some k => [Effect.s3Delete k (!s3g k)]
        | none => []) ++ [Effect.ledgerDelete id]) := by
    simp only [deleteAlertRoute, hfind]
    rw [if_neg hnot]
  refine ⟨?_, ?_, ?_, ?_, ?_, ?_⟩
  · intro k hk
    rw [hroutef, hk]
    rfl
  · intro hk
    rw [hroutef, hk]
    rfl
  · rw [hroutef, hrouteg]
  · rw [hroutef]
  · intro i hi
    by_cases hle : (db.alerts.filter
        (fun a => a.userEmail == safeLower userEmail)).length ≤ max
    · rw [enforce_eq_of_le s3f db userEmail max hle] at hi
      cases hi
    · rw [enforce_eq_of_gt s3f db userEmail max hle] at hi
      obtain ⟨v, hv, hvid⟩ :=
        ledgerDelete_mem_retentionEffects s3f _ i hi
      have hvprop := (mem_unprotected_iff _ _ _).mp
        (retentionVictims_subset _ _ _ v hv)
      obtain ⟨l₁, l₂, heq, hmem⟩ := retentionEffects_split s3f _ v hv
      refine ⟨v, hvprop.1, hvid, hvprop.2.2, l₁, l₂, ?_, hmem⟩
      rw [enforce_eq_of_gt s3f db userEmail max hle, ← hvid]
      exact heq
  · by_cases hle : (db.alerts.filter
        (fun a => a.userEmail == safeLower userEmail)).length ≤ max
    · rw [enforce_eq_of_le s3f db userEmail max hle,
        enforce_eq_of_le s3g db userEmail max hle]
    · rw [enforce_eq_of_gt s3f db userEmail max hle,
        enforce_eq_of_gt s3g db userEmail max hle]

/-- C8 witness: deleting alert 1 of `retDb` attempts the blob delete first
and then the row delete; the post-state of retention is the same whether
S3 deletes succeed (`noFail`) or throw (`allFail`). -/
theorem C8_blob_delete_before_row_delete_witness :
    (deleteAlertRoute noFail retDb "a@b" 1).2.2 =
      [Effect.s3Delete "1" true, Effect.ledgerDelete 1] ∧
    (deleteAlertRoute noFail retDb "a@b" 1).1 = .okDeleted ∧
    (enforceAlertRetention noFail retDb "a@b" 2).1 =
      (enforceAlertRetention allFail retDb "a@b" 2).1 := by
  have h := C8_blob_delete_before_row_delete noFail allFail retDb "a@b" 2 1
    (exAlert 1 10 false) (by decide) (by decide)
  exact ⟨h.1 "1" (by decide), h.2.2.2.1, h.2.2.2.2.2⟩

/-! ## Claim C9 -/

theorem pipeline_eq_missing (env : PipelineEnv) (db : Db) (userEmail : String)
    (zoneId cameraId : Option Nat) (channel : String)
    (h : safeLower userEmail = "") :
    processAlertPipeline env db userEmail zoneId cameraId channel =
      (.errorMissingEmail, db, []) := by
  simp [processAlertPipeline, h]

theorem pipeline_eq_noBucket (env : PipelineEnv) (db : Db) (userEmail : String)
    (zoneId cameraId : Option Nat) (channel : String)
    (hmail : ¬ safeLower userEmail = "") (hb : env.bucketSet = false) :
    processAlertPipeline env db userEmail zoneId cameraId channel =
      (.errorConfig "S3_BUCKET missing", db, []) := by
  simp [processAlertPipeline, hmail, hb]

theorem pipeline_eq_noCollection (env : PipelineEnv) (db : Db)
    (userEmail : String) (zoneId cameraId : Option Nat) (channel : String)
    (hmail : ¬ safeLower userEmail = "") (hb : env.bucketSet = true)
    (hcol : env.collectionSet = false) :
    processAlertPipeline env db userEmail zoneId cameraId channel =
      (.errorConfig "REKOG_COLLECTION_ID missing", db, []) := by
  simp [processAlertPipeline, hmail, hb, hcol]

/-- Exhaustive enumeration of the pipeline's outcomes, with the gate
conditions that select each. -/
theorem pipeline_result_cases (env : PipelineEnv) (db : Db)
    (userEmail : String) (zoneId cameraId : Option Nat) (channel : String) :
    (safeLower userEmail = "" ∧
      (processAlertPipeline env db userEmail zoneId cameraId channel).1 =
        .errorMissingEmail) ∨
    (¬ safeLower userEmail = "" ∧ env.bucketSet = false ∧
      (processAlertPipeline env db userEmail zoneId cameraId channel).1 =
        .errorConfig "S3_BUCKET missing") ∨
    (¬ safeLower userEmail = "" ∧ env.bucketSet = true ∧
      env.collectionSet = false ∧
      (processAlertPipeline env db userEmail zoneId cameraId channel).1 =
        .errorConfig "REKOG_COLLECTION_ID missing") ∨
    (¬ safeLower userEmail = "" ∧ env.bucketSet = true ∧
      env.collectionSet = true ∧
      shouldCooldownUnknown db env.now env.defaultCooldown zoneId = true ∧
      (processAlertPipeline env db userEmail zoneId cameraId channel).1 =
        .skippedCooldown zoneId) ∨
    (¬ safeLower userEmail = "" ∧ env.bucketSet = true ∧
      env.collectionSet = true ∧
      shouldCooldownUnknown db env.now env.defaultCooldown zoneId = false ∧
      ruleAllowsAlert db zoneId
        (decide (0 < (env.matcherResult).getD 0)) = false ∧
      (processAlertPipeline env db userEmail zoneId cameraId channel).1 =
        .skippedPolicy zoneId
          (if decide (0 < (env.matcherResult).getD 0) then "known"
           else "unknown")) ∨
    (¬ safeLower userEmail = "" ∧ env.bucketSet = true ∧
      env.collectionSet = true ∧
      shouldCooldownUnknown db env.now env.defaultCooldown zoneId = false ∧
      ruleAllowsAlert db zoneId
        (decide (0 < (env.matcherResult).getD 0)) = true ∧
      env.s3PutFails = true ∧
      (processAlertPipeline env db userEmail zoneId cameraId channel).1 =
        .errorS3) ∨
    (¬ safeLower userEmail = "" ∧ env.bucketSet = true ∧
      env.collectionSet = true ∧
      shouldCooldownUnknown db env.now env.defaultCooldown zoneId = false ∧
      ruleAllowsAlert db zoneId
        (decide (0 < (env.matcherResult).getD 0)) = true ∧
      env.s3PutFails = false ∧
      (processAlertPipeline env db userEmail zoneId cameraId channel).1 =
        .accepted db.nextId
          (if decide (0 < (env.matcherResult).getD 0) then "known"
           else "unknown")
          ((env.matcherResult).getD 0) (resolveCost db zoneId) zoneId cameraId
          env.newKey) := by
  by_cases h1 : safeLower userEmail = ""
  · exact Or.inl ⟨h1, by
      rw [pipeline_eq_missing env db userEmail zoneId cameraId channel h1]⟩
  cases hb : env.bucketSet with
  | false => exact Or.inr (Or.inl ⟨h1, rfl, by
      rw [pipeline_eq_noBucket env db userEmail zoneId cameraId channel h1 hb]⟩)
  | true =>
    cases hcol : env.collectionSet with
    | false => exact Or.inr (Or.inr (Or.inl ⟨h1, rfl, rfl, by
        rw [pipeline_eq_noCollection env db userEmail zoneId cameraId channel
          h1 hb hcol]⟩))
    | true =>
      cases hsup : shouldCooldownUnknown db env.now env.defaultCooldown zoneId
        with
      | true => exact Or.inr (Or.inr (Or.inr (Or.inl ⟨h1, rfl, rfl, rfl, by
          rw [pipeline_eq_cooldown env db userEmail zoneId cameraId channel
            h1 hb hcol hsup]⟩)))
      | false =>
        cases hallow : ruleAllowsAlert db zoneId
            (decide (0 < (env.matcherResult).getD 0)) with
        | false => exact Or.inr (Or.inr (Or.inr (Or.inr (Or.inl
            ⟨h1, rfl, rfl, rfl, rfl, by
              rw [pipeline_eq_policy env db userEmail zoneId cameraId channel
                h1 hb hcol hsup hallow]⟩))))
        | true =>
          cases hs3 : env.s3PutFails with
          | true => exact Or.inr (Or.inr (Or.inr (Or.inr (Or.inr (Or.inl
              ⟨h1, rfl, rfl, rfl, rfl, rfl, by
                rw [pipeline_eq_s3fail env db userEmail zoneId cameraId
                  channel h1 hb hcol hsup hallow hs3]⟩)))))
          | false => exact Or.inr (Or.inr (Or.inr (Or.inr (Or.inr (Or.inr
              ⟨h1, rfl, rfl, rfl, rfl, rfl, by
                rw [pipeline_eq_accepted env db userEmail zoneId cameraId
                  channel h1 hb hcol hsup hallow hs3]⟩)))))

/-- C9 counterexample: the storage-failure cause is the literal string
`"S3 upload failed"`, which names the object-store dependency (it starts
with `"S3"`), and the accepted result carries an `image_key` field — so
the result is not limited to the four information-free variants. -/
theorem C9_result_shape_counterexample :
    (processAlertPipeline envC5 cdDb "a@b" (some 7) none "email").1 =
      .errorS3 ∧
    resultError
      (processAlertPipeline envC5 cdDb "a@b" (some 7) none "email").1 =
      some "S3 upload failed" ∧
    (∃ rest, "S3 upload failed" = "S3" ++ rest) ∧
    resultImageKey
      (processAlertPipeline envC4 cdDb "a@b" (some 7) none "email").1 =
      some "kX" := by
  have h5 := pipeline_eq_s3fail envC5 cdDb "a@b" (some 7) none "email"
    (by decide) rfl rfl (by decide) (by decide) rfl
  have h4 := pipeline_eq_accepted envC4 cdDb "a@b" (some 7) none "email"
    (by decide) rfl rfl (by decide) (by decide) rfl
  refine ⟨by rw [h5], by rw [h5]; rfl, ⟨" upload failed", rfl⟩,
    by rw [h4]; rfl⟩

/-- C9 (amended): the pipeline's outcome is one of: missing-email error,
configuration error, skipped/cooldown, skipped/policy, storage-failure
error, accepted — accepted occurs exactly when every gate passes and the
storage failure occurs exactly when only the storage write fails; but the
result carries more than the four advertised variants: the accepted
result exposes the raw face-match count and the S3 object key, and the
failure cause is a fixed string naming the failing dependency. -/
theorem C9_result_shape (env : PipelineEnv) (db : Db) (userEmail : String)
    (zoneId cameraId : Option Nat) (channel : String) :
    ((∃ t f c,
      (processAlertPipeline env db userEmail zoneId cameraId channel).1 =
        .accepted db.nextId t f c zoneId cameraId env.newKey) ↔
      (¬ safeLower userEmail = "" ∧ env.bucketSet = true ∧
       env.collectionSet = true ∧
       shouldCooldownUnknown db env.now env.defaultCooldown zoneId = false ∧
       ruleAllowsAlert db zoneId
         (decide (0 < (env.matcherResult).getD 0)) = true ∧
       env.s3PutFails = false)) ∧
    ((processAlertPipeline env db userEmail zoneId cameraId channel).1 =
        .errorS3 ↔
      (¬ safeLower userEmail = "" ∧ env.bucketSet = true ∧
       env.collectionSet = true ∧
       shouldCooldownUnknown db env.now env.defaultCooldown zoneId = false ∧
       ruleAllowsAlert db zoneId
         (decide (0 < (env.matcherResult).getD 0)) = true ∧
       env.s3PutFails = true)) ∧
    (∀ aid t f c z cid k,
      (processAlertPipeline env db userEmail zoneId cameraId channel).1 =
        .accepted aid t f c z cid k →
      k = env.newKey ∧ f = (env.matcherResult).getD 0 ∧
      resultImageKey
        (processAlertPipeline env db userEmail zoneId cameraId channel).1 =
        some env.newKey) := by
  have hcases := pipeline_result_cases env db userEmail zoneId cameraId channel
  refine ⟨⟨?_, ?_⟩, ⟨?_, ?_⟩, ?_⟩
  · rintro ⟨t, f, c, h⟩
    rcases hcases with ⟨_, he⟩ | ⟨_, _, he⟩ | ⟨_, _, _, he⟩ |
      ⟨_, _, _, _, he⟩ | ⟨_, _, _, _, _, he⟩ | ⟨_, _, _, _, _, _, he⟩ |
      ⟨c1, c2, c3, c4, c5, c6, he⟩
    all_goals rw [he] at h
    all_goals first
      | exact ⟨c1, c2, c3, c4, c5, c6⟩
      | cases h
  · rintro ⟨c1, c2, c3, c4, c5, c6⟩
    exact ⟨_, _, _, by
      rw [pipeline_eq_accepted env db userEmail zoneId cameraId channel
        c1 c2 c3 c4 c5 c6]⟩
  · intro h
    rcases hcases with ⟨_, he⟩ | ⟨_, _, he⟩ | ⟨_, _, _, he⟩ |
      ⟨_, _, _, _, he⟩ | ⟨_, _, _, _, _, he⟩ |
      ⟨c1, c2, c3, c4, c5, c6, he⟩ | ⟨_, _, _, _, _, _, he⟩
    all_goals rw [he] at h
    all_goals first
      | exact ⟨c1, c2, c3, c4, c5, c6⟩
      | cases h
  · rintro ⟨c1, c2, c3, c4, c5, c6⟩
    rw [pipeline_eq_s3fail env db userEmail zoneId cameraId channel
      c1 c2 c3 c4 c5 c6]
  · intro aid t f c z cid k h
    rcases hcases with ⟨_, he⟩ | ⟨_, _, he⟩ | ⟨_, _, _, he⟩ |
      ⟨_, _, _, _, he⟩ | ⟨_, _, _, _, _, he⟩ | ⟨_, _, _, _, _, _, he⟩ |
      ⟨c1, c2, c3, c4, c5, c6, he⟩
    · rw [he] at h; cases h
    · rw [he] at h; cases h
    · rw [he] at h; cases h
    · rw [he] at h; cases h
    · rw [he] at h; cases h
    · rw [he] at h; cases h
    · rw [he] at h
      injection h with h1 h2 h3 h4 h5 h6 h7
      exact ⟨h7.symm, h3.symm, by rw [he]; rfl⟩

/-- C9 witness: on `cdDb` with every gate passing, the accepted-result
characterization produces a concrete accepted outcome carrying the S3
key. -/
theorem C9_result_shape_witness :
    ∃ t f c,
      (processAlertPipeline envC4 cdDb "a@b" (some 7) none "email").1 =
        .accepted cdDb.nextId t f c (some 7) none envC4.newKey := by
  have h := C9_result_shape envC4 cdDb "a@b" (some 7) none "email"
  exact h.1.mpr ⟨by decide, rfl, rfl, by decide, by decide, rfl⟩

/-- Ledger with a rule for zone 1 already present. -/
def zrDb : Db :=
  { alerts := [], zoneRules := [(1, ⟨"mixed", 99⟩)], zones := [], nextId := 1 }

/-- C7 witness: a second upsert for zone 1 replaces `zrDb`'s existing rule
(leaving exactly one), and the router variant clamps 5000 into range. -/
theorem C7_upsert_validate_replace_witness :
    (zoneRulesUpsertServer zrDb true 1 "known_only" (some 7)).1 = .okSaved ∧
    (∃ r : ZoneRule,
      getZoneRule (zoneRulesUpsertServer zrDb true 1 "known_only"
        (some 7)).2 1 = some r ∧ r.ruleType = "known_only") ∧
    ((zoneRulesUpsertServer zrDb true 1 "known_only"
        (some 7)).2.zoneRules.filter (fun p => p.1 == 1)).length = 1 ∧
    (∃ r : ZoneRule,
      getZoneRule (zoneRulesUpsertRouter zrDb true 1 "known_only"
        (some 5000)).2 1 = some r ∧ r.ruleType = "known_only" ∧
      1 ≤ r.alertInterval ∧ r.alertInterval ≤ 1440) := by
  have h := C7_upsert_validate_replace zrDb true 1 "known_only" (some 7)
    (by decide) (by decide) rfl
  have h' := C7_upsert_validate_replace zrDb true 1 "known_only" (some 5000)
    (by decide) (by decide) rfl
  exact ⟨h.1, h.2.1, h.2.2.2.1, h'.2.2.2.2.1⟩

/-! ## Claim C10 -/

/-- C10: with the classification query omitted the listing returns only
`unknown` alerts of the caller, newest first, capped at 200 rows; any
explicit classification other than `all` likewise filters to exactly that
classification. -/
theorem C10_list_default_unknown (db : Db) (userEmail : String) :
    (∀ a ∈ listAlertsRoute db userEmail none,
      a.ty = "unknown" ∧ a.userEmail = safeLower userEmail) ∧
    (listAlertsRoute db userEmail none).length ≤ 200 ∧
    List.Sorted tsGe (listAlertsRoute db userEmail none) ∧
    (∀ t, ¬ t = "" → ¬ safeLower t = "all" →
      ∀ a ∈ listAlertsRoute db userEmail (some t),
        a.ty = safeLower t ∧ a.userEmail = safeLower userEmail) := by
  have hunk : safeLower "unknown" = "unknown" := by decide
  have hdef : listAlertsRoute db userEmail none =
      (List.insertionSort tsGe
        (db.alerts.filter (fun a =>
          a.userEmail == safeLower userEmail &&
            a.ty == safeLower "unknown"))).take 200 := by
    simp only [listAlertsRoute]
    rw [if_neg (by rw [hunk]; decide)]
  refine ⟨?_, ?_, ?_, ?_⟩
  · intro a ha
    rw [hdef] at ha
    have h1 := (List.perm_insertionSort tsGe _).subset
      (List.mem_of_mem_take ha)
    have h2 := (List.mem_filter.mp h1).2
    rw [hunk] at h2
    simp only [Bool.and_eq_true, beq_iff_eq] at h2
    exact ⟨h2.2, h2.1⟩
  · rw [hdef]
    exact List.length_take_le _ _
  · rw [hdef]
    exact List.Pairwise.sublist (List.take_sublist _ _)
      (List.sorted_insertionSort tsGe _)
  · intro t ht hta a ha
    have hdeft : listAlertsRoute db userEmail (some t) =
        (List.insertionSort tsGe
          (db.alerts.filter (fun a =>
            a.userEmail == safeLower userEmail &&
              a.ty == safeLower t))).take 200 := by
      simp only [listAlertsRoute]
      rw [if_neg ht, if_neg hta]
    rw [hdeft] at ha
    have h1 := (List.perm_insertionSort tsGe _).subset
      (List.mem_of_mem_take ha)
    have h2 := (List.mem_filter.mp h1).2
    simp only [Bool.and_eq_true, beq_iff_eq] at h2
    exact ⟨h2.2, h2.1⟩

/-- Ledger with one `known` and two `unknown` alerts for `a@b`. -/
def listDb : Db :=
  { alerts := [exAlert 1 10 false,
               { exAlert 2 5 false with ty := "known" },
               exAlert 3 1 false],
    zoneRules := [], zones := [], nextId := 4 }

/-- C10 witness: on `listDb` the default listing is capped, sorted
newest-first, and the known-typed row 2 drops out of it while row 1
remains `unknown`. -/
theorem C10_list_default_unknown_witness :
    (listAlertsRoute listDb "a@b" none).length ≤ 200 ∧
    List.Sorted tsGe (listAlertsRoute listDb "a@b" none) ∧
    (exAlert 1 10 false ∈ listAlertsRoute listDb "a@b" none →
      (exAlert 1 10 false).ty = "unknown" ∧
      (exAlert 1 10 false).userEmail = safeLower "a@b") := by
  have h := C10_list_default_unknown listDb "a@b"
  exact ⟨h.2.1, h.2.2.1, fun hm => h.1 _ hm⟩

end SpotAlert
